import Mathlib

/-!
Shallow embedding of the navigation/history core of the Glidr browser
(`src/main.py`).  Python strings are modelled as `List Char`; the
`Glidr` widget's history-relevant mutable attributes are collected in
`GState`.  Every definition mirrors the corresponding Python function,
restricted to the fields it reads or writes (pure UI work — widget
creation, focus, timers, animations — is dropped, as it never touches
`history`, `current_index`, `ignore_url_add` or `ai_mode`).
-/

/-- Python strings modelled as lists of characters. -/
abbrev PyStr := List Char

/-- Conversion from a Lean string literal to the `PyStr` model. -/
def pys (s : String) : PyStr := s.data

/-- Python whitespace characters, as used by `str.strip()`. -/
def is_py_space (c : Char) : Bool :=
  c = ' ' || c = '\t' || c = '\n' || c = '\r' || c = '\x0B' || c = '\x0C'

/-- Model of Python's `str.strip()`: remove leading and trailing whitespace. -/
def py_strip (l : PyStr) : PyStr :=
  ((l.dropWhile is_py_space).reverse.dropWhile is_py_space).reverse

/-- History-relevant state of the `Glidr` widget (`Glidr.__init__`,
lines 716-721 of `src/main.py`): `self.history` (a list of strings),
`self.current_index` (an `int`, `-1` before seeding), the one-shot
`self.ignore_url_add` flag, and `self.ai_mode` (AI panel open/closed). -/
structure GState where
  history : List PyStr
  current_index : Int
  ignore_url_add : Bool
  ai_mode : Bool
deriving DecidableEq, Repr

/-- The push pattern repeated verbatim at `src/main.py` lines 1000-1003
(`show_startup_widget`), 1069-1072 (`unified_search_trigger`),
1209-1212 (`_navigate_to`) and 1226-1229 (`on_url_changed`):

    self.history = self.history[: self.current_index + 1]
    if not self.history or self.history[-1] != entry:
        self.history.append(entry)
        self.current_index = len(self.history) - 1

Note the truncation happens unconditionally, before the duplicate check. -/
def history_push (s : GState) (entry : PyStr) : GState :=
  let h := s.history.take (s.current_index + 1).toNat
  if h = [] ∨ h.getLast? ≠ some entry then
    { s with history := h ++ [entry],
             current_index := ((h ++ [entry]).length : Int) - 1 }
  else
    { s with history := h }

/-- History effect of `Glidr.show_startup_widget` (lines 998-1003):
the push pattern with entry `"startup://"`. -/
def show_startup_widget (s : GState) : GState :=
  history_push s (pys "startup://")

/-- Model of `is_probable_url` (lines 88-102):

    if " " in text: return False
    if "." in text and not text.startswith("search://") and not text.startswith("startup://"):
        return True
    return False -/
def is_probable_url (text : PyStr) : Bool :=
  if text.contains ' ' then false
  else if text.contains '.' && !((pys "search://").isPrefixOf text)
        && !((pys "startup://").isPrefixOf text) then true
  else false

/-- State effect of `Glidr.toggle_ai_interface` (lines 957-981): flips
`self.ai_mode`; the widget creation/destruction it performs keeps
`glidrai_chat_widget` non-`None` exactly when `ai_mode` is `True`. -/
def toggle_ai_interface (s : GState) : GState :=
  { s with ai_mode := !s.ai_mode }

/-- History effect of `Glidr._navigate_to` (lines 1194-1215): the push
pattern with the url, then `self.ignore_url_add = True` (line 1213). -/
def navigate_to (s : GState) (url : PyStr) : GState :=
  let s1 := history_push s url
  { s1 with ignore_url_add := true }

/-- History effect of `Glidr.unified_search_trigger` (lines 1047-1077):
closes the AI panel if open (line 1059-1060), then either navigates to
the (possibly `https://`-prefixed) url when `is_probable_url` holds
(lines 1062-1066), or runs the push pattern on `"search://" + text`
(lines 1068-1072). -/
def unified_search_trigger (s : GState) (text : PyStr) : GState :=
  let s0 := if s.ai_mode then toggle_ai_interface s else s
  if is_probable_url text then
    let url := if !((pys "http://").isPrefixOf text)
                && !((pys "https://").isPrefixOf text)
               then pys "https://" ++ text else text
    navigate_to s0 url
  else
    history_push s0 (pys "search://" ++ text)

/-- History effect of `Glidr.on_url_changed` (lines 1217-1231): swallow
one notification when `ignore_url_add` is set; return unchanged when the
current entry already equals the new url; otherwise the push pattern. -/
def on_url_changed (s : GState) (new_url : PyStr) : GState :=
  if s.ignore_url_add then { s with ignore_url_add := false }
  else if 0 ≤ s.current_index ∧
          s.history.getD s.current_index.toNat [] = new_url then s
  else history_push s new_url

/-- History effect of `Glidr.go_back` (lines 1233-1264).  First the
collapse rule (line 1235): if `current_index > 1`, the current entry is a
`search://` entry and `history[1]` is `"startup://"`, set
`current_index = 1`, set `ignore_url_add`, and show the startup widget.
Otherwise return unchanged when `current_index <= 0`; otherwise decrement
and dispatch on the new current entry (startup / search / url). -/
def go_back (s : GState) : GState :=
  if 1 < s.current_index ∧
     (pys "search://").isPrefixOf (s.history.getD s.current_index.toNat []) ∧
     s.history.getD 1 [] = pys "startup://" then
    show_startup_widget { s with current_index := 1, ignore_url_add := true }
  else if s.current_index ≤ 0 then s
  else
    let s1 : GState := { s with current_index := s.current_index - 1,
                                ignore_url_add := true }
    let entry := s1.history.getD s1.current_index.toNat []
    if entry = pys "startup://" then show_startup_widget s1
    else if (pys "search://").isPrefixOf entry then
      unified_search_trigger s1 (entry.drop (pys "search://").length)
    else s1

/-- History effect of `Glidr.go_forward` (lines 1266-1288): return
unchanged when `current_index >= len(history) - 1`; otherwise increment
and dispatch on the new current entry exactly as `go_back` does. -/
def go_forward (s : GState) : GState :=
  if (s.history.length : Int) - 1 ≤ s.current_index then s
  else
    let s1 : GState := { s with current_index := s.current_index + 1,
                                ignore_url_add := true }
    let entry := s1.history.getD s1.current_index.toNat []
    if entry = pys "startup://" then show_startup_widget s1
    else if (pys "search://").isPrefixOf entry then
      unified_search_trigger s1 (entry.drop (pys "search://").length)
    else s1

/-- History effect of `Glidr.clear_history` (lines 1340-1344):
`self.history = []`, `self.current_index = -1`, then
`self.show_startup_widget()`. -/
def clear_history (s : GState) : GState :=
  show_startup_widget { s with history := [], current_index := -1 }

/-- Outcome of the single `requests.get` call inside `fetch_ai_summary`:
either a response with a status code and body text, or a network-level
failure (`requests.RequestException`). -/
inductive HttpOutcome where
  | success (status : Nat) (text : PyStr)
  | networkError
deriving DecidableEq, Repr

/-- Model of `fetch_ai_summary` (lines 65-86): on status 200 return
`res.text.strip()`; on any other status return `"No GlidrAI response."`;
on a `requests.RequestException` return `"GlidrAI response failed."`. -/
def fetch_ai_summary (o : HttpOutcome) : PyStr :=
  match o with
  | .success status text =>
      if status = 200 then py_strip text else pys "No GlidrAI response."
  | .networkError => pys "GlidrAI response failed."

/-- The marker `GlidrAIChatWidget.ai_special_string` (line 304). -/
def ai_special_string : PyStr := pys "__GLIDR_NAVIGATE__"

/-- Model of `GlidrAIChatWidget.detect_ai_navigation` (lines 564-581):
when the response starts with `"__GLIDR_NAVIGATE__("` and ends with
`")"`, strip the enclosed text (`response[len(prefix):-1].strip()`) and
prepend `"https://"` unless it already starts with `"http://"` or
`"https://"`; otherwise return `none`. -/
def detect_ai_navigation (response : PyStr) : Option PyStr :=
  let pfx := ai_special_string ++ ['(']
  if pfx.isPrefixOf response ∧ [')'].isSuffixOf response then
    let url := py_strip ((response.drop pfx.length).dropLast)
    some (if !((pys "http://").isPrefixOf url)
           && !((pys "https://").isPrefixOf url)
          then pys "https://" ++ url else url)
  else none

/-- State effect of `GlidrAIChatWidget.get_ai_response` (lines 548-562)
on the parent `Glidr` state: the raw AI reply is stripped; when
`detect_ai_navigation` fires, the AI panel is toggled closed and
`_navigate_to` is run on the extracted url; otherwise the reply is only
displayed as chat text and the navigation state is untouched. -/
def get_ai_response (s : GState) (raw : PyStr) : GState :=
  let response := py_strip raw
  match detect_ai_navigation response with
  | some nav_url => navigate_to (toggle_ai_interface s) nav_url
  | none => s

/-- The four "push" operations named by the spec's invariant: search
submissions (`unified_search_trigger`), programmatic URL navigations
(`_navigate_to`), external URL changes (`on_url_changed`) and startup
seeding (`show_startup_widget`). -/
inductive PushOp where
  | searchSubmit (text : PyStr)
  | navigate (url : PyStr)
  | urlChanged (url : PyStr)
  | startupSeed
deriving Repr

/-- Interpretation of a `PushOp` on the state. -/
def applyPushOp (op : PushOp) (s : GState) : GState :=
  match op with
  | .searchSubmit text => unified_search_trigger s text
  | .navigate url => navigate_to s url
  | .urlChanged url => on_url_changed s url
  | .startupSeed => show_startup_widget s

/-- Running a sequence of push operations from left to right. -/
def runPushOps (ops : List PushOp) (s : GState) : GState :=
  ops.foldl (fun st op => applyPushOp op st) s

/-- State of the freshly constructed `Glidr` widget (lines 716-721). -/
def initState : GState :=
  { history := [], current_index := -1, ignore_url_add := false, ai_mode := false }

/-- State right after the startup seeding the constructor schedules
(`QTimer.singleShot(0, self.show_startup_widget)`, line 735). -/
def seeded : GState := show_startup_widget initState

/-- The navigation-history invariant: an in-range cursor and no two
equal consecutive entries. -/
def NavInv (s : GState) : Prop :=
  0 ≤ s.current_index ∧ s.current_index < s.history.length ∧
    List.Chain' (fun a b => a ≠ b) s.history

example : seeded = { history := [pys "startup://"], current_index := 0,
                     ignore_url_add := false, ai_mode := false } := by decide

example : is_probable_url (pys "openai.com") = true := by decide
example : is_probable_url (pys "best pizza near me") = false := by decide
example : is_probable_url (pys "a.b\tc") = true := by decide
example : detect_ai_navigation (pys "__GLIDR_NAVIGATE__(github.com)")
    = some (pys "https://github.com") := by decide

/-- The entry `self.history[self.current_index]` currently shown
(read e.g. at lines 980, 1223 and 1235 of `src/main.py`). -/
def currentEntry (s : GState) : PyStr :=
  s.history.getD s.current_index.toNat []

/-- The last element of `take (n+1)` is the element at index `n`. -/
lemma getLast?_take_succ {α : Type} (l : List α) (n : Nat) (h : n < l.length) :
    (l.take (n+1)).getLast? = l[n]? := by
  rw [List.getLast?_eq_getElem?, List.length_take]
  have hmin : (n+1) ⊓ l.length = n + 1 := by omega
  rw [hmin]
  simp [List.getElem?_take]

/-- A push whose entry differs from the current entry truncates the
forward tail, appends, and moves the cursor to the new end. -/
lemma history_push_eq_append (s : GState) (e : PyStr)
    (h0 : 0 ≤ s.current_index) (h1 : s.current_index < s.history.length)
    (hne : s.history.getD s.current_index.toNat [] ≠ e) :
    history_push s e =
      { s with history := s.history.take (s.current_index.toNat + 1) ++ [e],
               current_index := (s.current_index.toNat + 1 : Int) } := by
  have hlt : s.current_index.toNat < s.history.length := by omega
  have hn : (s.current_index + 1).toNat = s.current_index.toNat + 1 := by omega
  have hget : s.history[s.current_index.toNat]? =
      some (s.history[s.current_index.toNat]) := List.getElem?_eq_getElem hlt
  have hlast : (s.history.take (s.current_index.toNat + 1)).getLast? =
      some (s.history[s.current_index.toNat]) := by
    rw [getLast?_take_succ _ _ hlt, hget]
  have hgd : s.history.getD s.current_index.toNat [] =
      s.history[s.current_index.toNat] := by
    rw [List.getD_eq_getElem?_getD, hget]; rfl
  have hcond : s.history.take (s.current_index.toNat + 1) = [] ∨
      (s.history.take (s.current_index.toNat + 1)).getLast? ≠ some e := by
    refine Or.inr ?_
    rw [hlast]
    intro hcontra
    exact hne (by rw [hgd]; exact Option.some.inj hcontra)
  have hlen : (s.history.take (s.current_index.toNat + 1) ++ [e]).length
      = s.current_index.toNat + 2 := by
    simp [List.length_take]
    omega
  simp only [history_push, hn, if_pos hcond]
  congr 1
  rw [hlen]
  push_cast
  ring

/-- A push whose entry equals the current entry only truncates the
forward tail: nothing is appended and the cursor stays put. -/
lemma history_push_eq_trunc (s : GState) (e : PyStr)
    (h0 : 0 ≤ s.current_index) (h1 : s.current_index < s.history.length)
    (heq : s.history.getD s.current_index.toNat [] = e) :
    history_push s e =
      { s with history := s.history.take (s.current_index.toNat + 1) } := by
  have hlt : s.current_index.toNat < s.history.length := by omega
  have hn : (s.current_index + 1).toNat = s.current_index.toNat + 1 := by omega
  have hget : s.history[s.current_index.toNat]? =
      some (s.history[s.current_index.toNat]) := List.getElem?_eq_getElem hlt
  have hgd : s.history.getD s.current_index.toNat [] =
      s.history[s.current_index.toNat] := by
    rw [List.getD_eq_getElem?_getD, hget]; rfl
  have hlast : (s.history.take (s.current_index.toNat + 1)).getLast? = some e := by
    rw [getLast?_take_succ _ _ hlt, hget, ← hgd, heq]
  have hne : s.history.take (s.current_index.toNat + 1) ≠ [] := by
    have hl : (s.history.take (s.current_index.toNat + 1)).length
        = s.current_index.toNat + 1 := by
      rw [List.length_take]; omega
    intro hcontra
    rw [hcontra] at hl
    simp at hl
  have hcond : ¬ (s.history.take (s.current_index.toNat + 1) = [] ∨
      (s.history.take (s.current_index.toNat + 1)).getLast? ≠ some e) := by
    push_neg
    exact ⟨hne, hlast⟩
  simp only [history_push, hn, if_neg hcond]

/-- After any push from a valid cursor position, the current entry is
the pushed entry. -/
lemma currentEntry_history_push (s : GState) (e : PyStr)
    (h0 : 0 ≤ s.current_index) (h1 : s.current_index < s.history.length) :
    currentEntry (history_push s e) = e := by
  by_cases heq : s.history.getD s.current_index.toNat [] = e
  · rw [history_push_eq_trunc s e h0 h1 heq]
    have hlt : s.current_index.toNat < s.history.length := by omega
    have hget : s.history[s.current_index.toNat]? =
        some (s.history[s.current_index.toNat]) := List.getElem?_eq_getElem hlt
    have hgd : s.history.getD s.current_index.toNat [] =
        s.history[s.current_index.toNat] := by
      rw [List.getD_eq_getElem?_getD, hget]; rfl
    simp only [currentEntry]
    rw [List.getD_eq_getElem?_getD, List.getElem?_take]
    rw [if_pos (by omega), hget, ← hgd, heq]
    rfl
  · rw [history_push_eq_append s e h0 h1 heq]
    simp only [currentEntry]
    have htn : ((s.current_index.toNat + 1 : Int)).toNat
        = s.current_index.toNat + 1 := by omega
    rw [htn]
    set L := s.history.take (s.current_index.toNat + 1) with hL
    have hlen : L.length = s.current_index.toNat + 1 := by
      rw [hL, List.length_take]; omega
    rw [List.getD_eq_getElem?_getD, ← hlen, List.getElem?_concat_length]
    rfl

/-- The push pattern preserves the navigation-history invariant. -/
lemma navInv_history_push (s : GState) (e : PyStr) (h : NavInv s) :
    NavInv (history_push s e) := by
  obtain ⟨h0, h1, hc⟩ := h
  simp only [history_push]
  split
  case isTrue hcond =>
    refine ⟨?_, ?_, ?_⟩
    · simp only [List.length_append, List.length_cons, List.length_nil]
      omega
    · simp only [List.length_append, List.length_cons, List.length_nil]
      omega
    · rw [List.chain'_append]
      refine ⟨hc.take _, by simp, ?_⟩
      intro x hx y hy
      simp only [List.head?_cons, Option.mem_def, Option.some.injEq] at hy
      rcases hcond with hnil | hlast
      · rw [hnil] at hx
        simp at hx
      · simp only [Option.mem_def] at hx
        rw [hx] at hlast
        intro hxy
        exact hlast (by rw [hxy, hy])
  case isFalse hcond =>
    push_neg at hcond
    refine ⟨h0, ?_, hc.take _⟩
    show s.current_index < ((s.history.take (s.current_index + 1).toNat).length : Int)
    rw [List.length_take]
    omega

/-- The startup push preserves the invariant. -/
lemma navInv_show_startup_widget (s : GState) (h : NavInv s) :
    NavInv (show_startup_widget s) :=
  navInv_history_push s _ h

/-- Programmatic navigation preserves the invariant. -/
lemma navInv_navigate_to (s : GState) (url : PyStr) (h : NavInv s) :
    NavInv (navigate_to s url) :=
  navInv_history_push s url h

/-- A search submission preserves the invariant. -/
lemma navInv_unified_search_trigger (s : GState) (t : PyStr) (h : NavInv s) :
    NavInv (unified_search_trigger s t) := by
  have h0 : NavInv (if s.ai_mode then toggle_ai_interface s else s) := by
    by_cases hai : s.ai_mode
    · rw [if_pos hai]; exact h
    · rw [if_neg hai]; exact h
  simp only [unified_search_trigger]
  split
  · exact navInv_navigate_to _ _ h0
  · exact navInv_history_push _ _ h0

/-- An external URL-change notification preserves the invariant. -/
lemma navInv_on_url_changed (s : GState) (u : PyStr) (h : NavInv s) :
    NavInv (on_url_changed s u) := by
  simp only [on_url_changed]
  split
  · exact h
  · split
    · exact h
    · exact navInv_history_push s u h

/-- Every push operation preserves the invariant. -/
lemma navInv_applyPushOp (op : PushOp) (s : GState) (h : NavInv s) :
    NavInv (applyPushOp op s) := by
  cases op with
  | searchSubmit t => exact navInv_unified_search_trigger s t h
  | navigate u => exact navInv_navigate_to s u h
  | urlChanged u => exact navInv_on_url_changed s u h
  | startupSeed => exact navInv_show_startup_widget s h

/-- C1: For every sequence of push operations (search submissions, URL
navigations, external URL changes, startup seeding) starting from the
seeded history, the cursor `current_index` stays within `[0, length-1]`
and no two consecutive entries of the history are equal. -/
theorem push_sequence_invariant (ops : List PushOp) :
    0 ≤ (runPushOps ops seeded).current_index ∧
    (runPushOps ops seeded).current_index ≤
      ((runPushOps ops seeded).history.length : Int) - 1 ∧
    List.Chain' (fun a b => a ≠ b) (runPushOps ops seeded).history := by
  have key : ∀ (l : List PushOp) (s : GState), NavInv s → NavInv (runPushOps l s) := by
    intro l
    induction l with
    | nil => intro s hs; exact hs
    | cons op rest ih =>
        intro s hs
        exact ih _ (navInv_applyPushOp op s hs)
  have hseed : seeded = ⟨[pys "startup://"], 0, false, false⟩ := by decide
  obtain ⟨a, b, c⟩ := key ops seeded (by
    unfold NavInv
    rw [hseed]
    exact ⟨by decide, by decide, List.chain'_singleton _⟩)
  exact ⟨a, by omega, c⟩

/-- C2: For every history state where the entry at `current_index` is a
Search entry, `current_index > 1`, and the entry at index 1 is Startup,
`go_back` sets `current_index` directly to 1, landing on the Startup
entry, rather than decrementing by one. -/
theorem go_back_search_collapse (s : GState)
    (h1 : 1 < s.current_index)
    (h2 : (pys "search://").isPrefixOf (s.history.getD s.current_index.toNat []) = true)
    (h3 : s.history.getD 1 [] = pys "startup://") :
    (go_back s).current_index = 1 ∧
    (go_back s).history.getD 1 [] = pys "startup://" := by
  have hlen : 1 < s.history.length := by
    by_contra hcon
    push_neg at hcon
    have hnone : s.history[1]? = none := List.getElem?_eq_none (by omega)
    rw [List.getD_eq_getElem?_getD, hnone] at h3
    exact absurd h3 (by decide)
  have hgb : go_back s =
      show_startup_widget { s with current_index := 1, ignore_url_add := true } := by
    simp only [go_back]
    rw [if_pos ⟨h1, h2, h3⟩]
  set s' : GState := { s with current_index := 1, ignore_url_add := true } with hs'
  have h0' : 0 ≤ s'.current_index := by show (0:Int) ≤ 1; decide
  have hlt' : s'.current_index < s'.history.length := by
    show (1 : Int) < (s.history.length : Int)
    exact_mod_cast hlen
  have heq' : s'.history.getD s'.current_index.toNat [] = pys "startup://" := h3
  have hpush := history_push_eq_trunc s' (pys "startup://") h0' hlt' heq'
  rw [hgb]
  show (history_push s' (pys "startup://")).current_index = 1 ∧
    (history_push s' (pys "startup://")).history.getD 1 [] = pys "startup://"
  constructor
  · rw [hpush]
  · rw [hpush]
    show (s.history.take 2).getD 1 [] = pys "startup://"
    rw [List.getD_eq_getElem?_getD, List.getElem?_take, if_pos (by omega)]
    rw [← List.getD_eq_getElem?_getD]
    exact h3

/-- Witness state for the collapse rule: a Search entry at index 2,
Startup at index 1. -/
def c2_witness_state : GState :=
  { history := [pys "x", pys "startup://", pys "search://q"],
    current_index := 2, ignore_url_add := false, ai_mode := false }

/-- Witness: the collapse theorem applied to `c2_witness_state`. -/
theorem go_back_search_collapse_witness :
    (go_back c2_witness_state).current_index = 1 ∧
    (go_back c2_witness_state).history.getD 1 [] = pys "startup://" :=
  go_back_search_collapse c2_witness_state (by decide) (by decide) (by decide)

/-- The state of the spec's worked example: history
`[Startup, Search{"cats"}, Search{"dogs"}, Page{"https://a.com"}]`,
cursor 3. -/
def c3_state : GState :=
  { history := [pys "startup://", pys "search://cats", pys "search://dogs",
                pys "https://a.com"],
    current_index := 3, ignore_url_add := false, ai_mode := false }

/-- C3 counterexample: in the example state, the first `go_back` does
NOT jump to index 1 (the current entry is a Page, not a Search, so the
collapse rule does not fire), and two `go_back` calls do NOT land on the
Startup entry. -/
theorem go_back_twice_example_refuted :
    (go_back c3_state).current_index ≠ 1 ∧
    currentEntry (go_back (go_back c3_state)) ≠ pys "startup://" := by decide

/-- C3 amended: in the example state the first `go_back` decrements to
index 2 (`Search{"dogs"}`), the second lands at index 1 on
`Search{"cats"}` (the collapse rule never fires since the entry at
index 1 is not Startup), and only a third `go_back` lands on Startup. -/
theorem go_back_twice_example_amended :
    (go_back c3_state).current_index = 2 ∧
    currentEntry (go_back c3_state) = pys "search://dogs" ∧
    (go_back (go_back c3_state)).current_index = 1 ∧
    currentEntry (go_back (go_back c3_state)) = pys "search://cats" ∧
    (go_back (go_back (go_back c3_state))).current_index = 0 ∧
    currentEntry (go_back (go_back (go_back c3_state))) = pys "startup://" := by
  decide

/-- A state whose cursor is not at the end: Startup, then the current
Search entry, then one forward entry. -/
def c4_cex_state : GState :=
  { history := [pys "startup://", pys "search://a", pys "search://b"],
    current_index := 1, ignore_url_add := false, ai_mode := false }

/-- C4 counterexample: pushing the entry equal to the current entry is
NOT a complete no-op — the entry after the cursor is discarded. -/
theorem duplicate_push_not_noop :
    currentEntry c4_cex_state = pys "search://a" ∧
    (history_push c4_cex_state (pys "search://a")).history
      ≠ c4_cex_state.history := by decide

/-- C4 amended: pushing an entry equal to the entry at `current_index`
appends nothing and leaves `current_index` (and the entries up to it)
unchanged, but still truncates the entries after `current_index`; it is
a complete no-op exactly in the case where the cursor is at the end. -/
theorem duplicate_push_truncates_only (s : GState) (e : PyStr)
    (h0 : 0 ≤ s.current_index) (h1 : s.current_index < s.history.length)
    (heq : s.history.getD s.current_index.toNat [] = e) :
    (history_push s e).history = s.history.take (s.current_index.toNat + 1) ∧
    (history_push s e).current_index = s.current_index ∧
    (s.current_index = (s.history.length : Int) - 1 → history_push s e = s) := by
  have h := history_push_eq_trunc s e h0 h1 heq
  refine ⟨by rw [h], by rw [h], ?_⟩
  intro hend
  rw [h]
  have hfull : s.current_index.toNat + 1 = s.history.length := by omega
  rw [hfull, List.take_length]

/-- Witness: the amended duplicate-push theorem at `c4_cex_state`. -/
theorem duplicate_push_truncates_only_witness :
    (history_push c4_cex_state (pys "search://a")).history
      = c4_cex_state.history.take (c4_cex_state.current_index.toNat + 1) ∧
    (history_push c4_cex_state (pys "search://a")).current_index
      = c4_cex_state.current_index ∧
    (c4_cex_state.current_index = (c4_cex_state.history.length : Int) - 1 →
      history_push c4_cex_state (pys "search://a") = c4_cex_state) :=
  duplicate_push_truncates_only c4_cex_state (pys "search://a")
    (by decide) (by decide) (by decide)

/-- C5: when the cursor is not at the end and the pushed entry differs
from the current entry, the push drops all entries after the cursor,
appends the new entry, and sets the cursor to the new length minus 1. -/
theorem push_truncates_forward_tail (s : GState) (e : PyStr)
    (h0 : 0 ≤ s.current_index)
    (h1 : s.current_index < (s.history.length : Int) - 1)
    (h2 : s.history.getD s.current_index.toNat [] ≠ e) :
    (history_push s e).history
      = s.history.take (s.current_index.toNat + 1) ++ [e] ∧
    (history_push s e).current_index
      = ((history_push s e).history.length : Int) - 1 ∧
    (history_push s e).history.length = s.current_index.toNat + 2 := by
  have h1' : s.current_index < (s.history.length : Int) := by omega
  have h := history_push_eq_append s e h0 h1' h2
  have hlen : ((history_push s e).history).length = s.current_index.toNat + 2 := by
    rw [h]
    show (s.history.take (s.current_index.toNat + 1) ++ [e]).length = _
    rw [List.length_append, List.length_take]
    simp only [List.length_cons, List.length_nil]
    omega
  refine ⟨by rw [h], ?_, hlen⟩
  rw [hlen, h]
  show (s.current_index.toNat + 1 : Int) = ((s.current_index.toNat + 2 : Nat) : Int) - 1
  push_cast
  ring

/-- Witness state for the truncating push: cursor parked at index 0
with two forward entries. -/
def c5_witness_state : GState :=
  { history := [pys "startup://", pys "search://a", pys "search://b"],
    current_index := 0, ignore_url_add := false, ai_mode := false }

/-- Witness: the truncating-push theorem at `c5_witness_state`. -/
theorem push_truncates_forward_tail_witness :
    (history_push c5_witness_state (pys "https://x.com")).history
      = c5_witness_state.history.take (c5_witness_state.current_index.toNat + 1)
        ++ [pys "https://x.com"] ∧
    (history_push c5_witness_state (pys "https://x.com")).current_index
      = ((history_push c5_witness_state (pys "https://x.com")).history.length : Int) - 1 ∧
    (history_push c5_witness_state (pys "https://x.com")).history.length
      = c5_witness_state.current_index.toNat + 2 :=
  push_truncates_forward_tail c5_witness_state (pys "https://x.com")
    (by decide) (by decide) (by decide)

/-- Claim-side URL test, in the amended claim's words: no space
character, a dot, and not starting with a reserved pseudo-scheme. -/
def amended_url_test (t : PyStr) : Bool :=
  !(t.contains ' ') && t.contains '.'
    && !((pys "search://").isPrefixOf t) && !((pys "startup://").isPrefixOf t)

/-- C6 counterexample: the input `"a.b\tc"` contains whitespace (a tab),
so the claim classifies it as a search query, yet the code classifies it
as a URL and pushes a Page entry; and the input `"ftp://x.y"` carries a
scheme, so the claim performs no prefixing, yet the code still prepends
`"https://"`. -/
theorem url_classification_refuted :
    ((pys "a.b\tc").any Char.isWhitespace = true ∧
     is_probable_url (pys "a.b\tc") = true ∧
     currentEntry (unified_search_trigger seeded (pys "a.b\tc"))
       = pys "https://a.b\tc") ∧
    (is_probable_url (pys "ftp://x.y") = true ∧
     currentEntry (unified_search_trigger seeded (pys "ftp://x.y"))
       = pys "https://ftp://x.y" ∧
     currentEntry (unified_search_trigger seeded (pys "ftp://x.y"))
       ≠ pys "ftp://x.y") := by decide

/-- Behaviour of a search submission on the current entry, split by the
URL heuristic. -/
lemma currentEntry_unified_search_trigger (s : GState) (t : PyStr)
    (h0 : 0 ≤ s.current_index) (h1 : s.current_index < s.history.length) :
    (is_probable_url t = true →
      currentEntry (unified_search_trigger s t)
        = (if !((pys "http://").isPrefixOf t) && !((pys "https://").isPrefixOf t)
           then pys "https://" ++ t else t)) ∧
    (is_probable_url t = false →
      currentEntry (unified_search_trigger s t) = pys "search://" ++ t) := by
  constructor
  · intro hurl
    simp only [unified_search_trigger, hurl, if_true]
    by_cases hai : s.ai_mode
    · rw [if_pos hai]
      exact currentEntry_history_push _ _ h0 h1
    · rw [if_neg hai]
      exact currentEntry_history_push _ _ h0 h1
  · intro hurl
    simp only [unified_search_trigger, hurl, Bool.false_eq_true, if_false]
    by_cases hai : s.ai_mode
    · rw [if_pos hai]
      exact currentEntry_history_push _ _ h0 h1
    · rw [if_neg hai]
      exact currentEntry_history_push _ _ h0 h1

/-- C6 amended: for every non-blank input, `unified_search_trigger`
classifies it as a URL exactly when it contains no space character,
contains a dot, and does not start with `search://` or `startup://`;
in that case it prefixes `https://` exactly when the text does not
already start with `http://` or `https://` and pushes a Page entry with
the resulting URL (`"openai.com"` yields `"https://openai.com"`), and
otherwise it pushes a Search entry. -/
theorem url_classification_amended (s : GState) (t : PyStr) (hne : t ≠ [])
    (h0 : 0 ≤ s.current_index) (h1 : s.current_index < s.history.length) :
    (is_probable_url t = amended_url_test t) ∧
    (is_probable_url t = true →
      currentEntry (unified_search_trigger s t)
        = (if !((pys "http://").isPrefixOf t) && !((pys "https://").isPrefixOf t)
           then pys "https://" ++ t else t)) ∧
    (is_probable_url t = false →
      currentEntry (unified_search_trigger s t) = pys "search://" ++ t) ∧
    currentEntry (unified_search_trigger seeded (pys "openai.com"))
      = pys "https://openai.com" := by
  have hclass : is_probable_url t = amended_url_test t := by
    by_cases hsp : t.contains ' ' = true
    · simp [is_probable_url, amended_url_test, hsp, Bool.and_assoc]
    · simp only [Bool.not_eq_true] at hsp
      by_cases hrest : (t.contains '.' && !((pys "search://").isPrefixOf t)
          && !((pys "startup://").isPrefixOf t)) = true
      · simp [is_probable_url, amended_url_test, hsp, hrest, Bool.and_assoc]
      · simp only [Bool.not_eq_true] at hrest
        simp [is_probable_url, amended_url_test, hsp, hrest, Bool.and_assoc]
  have hbeh := currentEntry_unified_search_trigger s t h0 h1
  exact ⟨hclass, hbeh.1, hbeh.2, by decide⟩

/-- Witness: the amended classification theorem applied at the seeded
state and the spec's example input `"openai.com"`. -/
theorem url_classification_amended_witness :
    (is_probable_url (pys "openai.com") = amended_url_test (pys "openai.com")) ∧
    (is_probable_url (pys "openai.com") = true →
      currentEntry (unified_search_trigger seeded (pys "openai.com"))
        = (if !((pys "http://").isPrefixOf (pys "openai.com"))
              && !((pys "https://").isPrefixOf (pys "openai.com"))
           then pys "https://" ++ pys "openai.com" else pys "openai.com")) ∧
    (is_probable_url (pys "openai.com") = false →
      currentEntry (unified_search_trigger seeded (pys "openai.com"))
        = pys "search://" ++ pys "openai.com") ∧
    currentEntry (unified_search_trigger seeded (pys "openai.com"))
      = pys "https://openai.com" :=
  url_classification_amended seeded (pys "openai.com")
    (by decide) (by decide) (by decide)

/-- A `dropWhile` that already fails on the head leaves the list alone. -/
lemma dropWhile_eq_self_of_head {p : Char → Bool} (l : PyStr)
    (h : ∀ c ∈ l.head?, p c = false) : l.dropWhile p = l := by
  cases l with
  | nil => rfl
  | cons a l' =>
      have ha : p a = false := h a (by simp)
      simp [List.dropWhile_cons, ha]

/-- Stripping a string whose first and last characters are not
whitespace is the identity. -/
lemma py_strip_eq_self (l : PyStr)
    (hh : ∀ c ∈ l.head?, is_py_space c = false)
    (hl : ∀ c ∈ l.getLast?, is_py_space c = false) :
    py_strip l = l := by
  unfold py_strip
  rw [dropWhile_eq_self_of_head l hh]
  rw [dropWhile_eq_self_of_head l.reverse (by rw [List.head?_reverse]; exact hl)]
  exact List.reverse_reverse l

/-- A response of the exact navigation-marker shape is untouched by the
`strip()` in `get_ai_response`. -/
lemma py_strip_marker_pattern (url : PyStr) :
    py_strip (pys "__GLIDR_NAVIGATE__(" ++ (url ++ [')']))
      = pys "__GLIDR_NAVIGATE__(" ++ (url ++ [')']) := by
  apply py_strip_eq_self
  · intro c hc
    have hhd : (pys "__GLIDR_NAVIGATE__(" ++ (url ++ [')'])).head? = some '_' := rfl
    rw [hhd] at hc
    simp only [Option.mem_def, Option.some.injEq] at hc
    rw [← hc]
    decide
  · intro c hc
    have hassoc : pys "__GLIDR_NAVIGATE__(" ++ (url ++ [')'])
        = (pys "__GLIDR_NAVIGATE__(" ++ url) ++ [')'] := by
      rw [List.append_assoc]
    rw [hassoc, List.getLast?_concat] at hc
    simp only [Option.mem_def, Option.some.injEq] at hc
    rw [← hc]
    decide

/-- The detector fires on the exact marker pattern and returns the
enclosed URL, `https://`-prefixed unless it already carries `http://`
or `https://`. -/
lemma detect_ai_navigation_marker (url : PyStr) (hstrip : py_strip url = url) :
    detect_ai_navigation (pys "__GLIDR_NAVIGATE__(" ++ (url ++ [')']))
      = some (if !((pys "http://").isPrefixOf url)
                 && !((pys "https://").isPrefixOf url)
              then pys "https://" ++ url else url) := by
  have hpfx : ai_special_string ++ ['('] = pys "__GLIDR_NAVIGATE__(" := by decide
  have hpre : (ai_special_string ++ ['(']).isPrefixOf
      (pys "__GLIDR_NAVIGATE__(" ++ (url ++ [')'])) = true := by
    rw [hpfx, List.isPrefixOf_iff_prefix]
    exact List.prefix_append _ _
  have hsuf : ([')'] : PyStr).isSuffixOf
      (pys "__GLIDR_NAVIGATE__(" ++ (url ++ [')'])) = true := by
    rw [List.isSuffixOf_iff_suffix,
        show pys "__GLIDR_NAVIGATE__(" ++ (url ++ [')'])
          = (pys "__GLIDR_NAVIGATE__(" ++ url) ++ [')'] from by rw [List.append_assoc]]
    exact List.suffix_append _ _
  have hdrop : (pys "__GLIDR_NAVIGATE__(" ++ (url ++ [')'])).drop
      (ai_special_string ++ ['(']).length = url ++ [')'] := by
    rw [hpfx]
    exact List.drop_left _ _
  simp only [detect_ai_navigation, hpre, hsuf, and_self, if_true]
  rw [hdrop, List.dropLast_concat, hstrip]

/-- The `ai_mode` field survives any push. -/
lemma ai_mode_history_push (s : GState) (e : PyStr) :
    (history_push s e).ai_mode = s.ai_mode := by
  simp only [history_push]
  split <;> rfl

/-- C7: a chat response that is exactly `__GLIDR_NAVIGATE__(URL)` makes
the controller extract the URL, prepend `https://` when it lacks an
`http://`/`https://` scheme, close the AI panel and navigate (pushing the
URL as the new current entry); any response not matching the marker
prefix/suffix pattern leaves the navigation state untouched. -/
theorem ai_navigation_protocol (s : GState) (url : PyStr)
    (hstrip : py_strip url = url)
    (hopen : s.ai_mode = true)
    (h0 : 0 ≤ s.current_index) (h1 : s.current_index < s.history.length) :
    (detect_ai_navigation (pys "__GLIDR_NAVIGATE__(" ++ (url ++ [')']))
       = some (if !((pys "http://").isPrefixOf url)
                  && !((pys "https://").isPrefixOf url)
               then pys "https://" ++ url else url)) ∧
    ((get_ai_response s (pys "__GLIDR_NAVIGATE__(" ++ (url ++ [')']))).ai_mode
       = false) ∧
    (currentEntry (get_ai_response s (pys "__GLIDR_NAVIGATE__(" ++ (url ++ [')'])))
       = (if !((pys "http://").isPrefixOf url)
             && !((pys "https://").isPrefixOf url)
          then pys "https://" ++ url else url)) ∧
    (∀ raw : PyStr,
      ¬ ((ai_special_string ++ ['(']).isPrefixOf (py_strip raw) = true ∧
         ([')'] : PyStr).isSuffixOf (py_strip raw) = true) →
      get_ai_response s raw = s) := by
  have hdet := detect_ai_navigation_marker url hstrip
  have hget : get_ai_response s (pys "__GLIDR_NAVIGATE__(" ++ (url ++ [')']))
      = navigate_to (toggle_ai_interface s)
          (if !((pys "http://").isPrefixOf url)
              && !((pys "https://").isPrefixOf url)
           then pys "https://" ++ url else url) := by
    simp only [get_ai_response]
    rw [py_strip_marker_pattern, hdet]
  refine ⟨hdet, ?_, ?_, ?_⟩
  · rw [hget]
    show (history_push (toggle_ai_interface s) _).ai_mode = false
    rw [ai_mode_history_push]
    simp [toggle_ai_interface, hopen]
  · rw [hget]
    exact currentEntry_history_push _ _ h0 h1
  · intro raw hnm
    simp only [get_ai_response, detect_ai_navigation, if_neg hnm]

/-- Witness state for the navigation protocol: seeded history with the
AI panel open. -/
def c7_witness_state : GState :=
  { history := [pys "startup://"], current_index := 0,
    ignore_url_add := false, ai_mode := true }

/-- Witness: the navigation-protocol theorem at the spec's example
response `__GLIDR_NAVIGATE__(github.com)`. -/
theorem ai_navigation_protocol_witness :
    (detect_ai_navigation (pys "__GLIDR_NAVIGATE__(" ++ (pys "github.com" ++ [')']))
       = some (if !((pys "http://").isPrefixOf (pys "github.com"))
                  && !((pys "https://").isPrefixOf (pys "github.com"))
               then pys "https://" ++ pys "github.com" else pys "github.com")) ∧
    ((get_ai_response c7_witness_state
        (pys "__GLIDR_NAVIGATE__(" ++ (pys "github.com" ++ [')']))).ai_mode
       = false) ∧
    (currentEntry (get_ai_response c7_witness_state
        (pys "__GLIDR_NAVIGATE__(" ++ (pys "github.com" ++ [')'])))
       = (if !((pys "http://").isPrefixOf (pys "github.com"))
             && !((pys "https://").isPrefixOf (pys "github.com"))
          then pys "https://" ++ pys "github.com" else pys "github.com")) ∧
    (∀ raw : PyStr,
      ¬ ((ai_special_string ++ ['(']).isPrefixOf (py_strip raw) = true ∧
         ([')'] : PyStr).isSuffixOf (py_strip raw) = true) →
      get_ai_response c7_witness_state raw = c7_witness_state) :=
  ai_navigation_protocol c7_witness_state (pys "github.com")
    (by decide) (by decide) (by decide) (by decide)

/-- C8 counterexample: on HTTP status 200 with body `" hi "` the fetch
resolves to the stripped text `"hi"`, not to the remote response text
itself. -/
theorem ai_summary_text_refuted :
    fetch_ai_summary (.success 200 (pys " hi ")) ≠ pys " hi " ∧
    fetch_ai_summary (.success 200 (pys " hi ")) = pys "hi" := by decide

/-- C8 amended: the fetch is a total function of the request outcome —
it resolves to exactly one result string: the whitespace-stripped remote
response text on HTTP status 200, `"No GlidrAI response."` on any other
status, and `"GlidrAI response failed."` on network failure. -/
theorem ai_summary_resolution :
    (∀ t : PyStr, fetch_ai_summary (.success 200 t) = py_strip t) ∧
    (∀ (st : Nat) (t : PyStr), st ≠ 200 →
      fetch_ai_summary (.success st t) = pys "No GlidrAI response.") ∧
    fetch_ai_summary .networkError = pys "GlidrAI response failed." := by
  refine ⟨fun t => rfl, fun st t hst => ?_, rfl⟩
  simp only [fetch_ai_summary, if_neg hst]

/-- Witness: the fallback clause of the resolution theorem at status
404. -/
theorem ai_summary_resolution_witness :
    fetch_ai_summary (.success 404 (pys "x")) = pys "No GlidrAI response." :=
  ai_summary_resolution.2.1 404 (pys "x") (by decide)

/-- C9: `clear_history` is idempotent — a second call yields the same
state as one call, namely history `["startup://"]` with cursor 0. -/
theorem clear_history_idempotent (s : GState) :
    clear_history (clear_history s) = clear_history s ∧
    (clear_history s).history = [pys "startup://"] ∧
    (clear_history s).current_index = 0 :=
  ⟨rfl, rfl, rfl⟩

/-- C10: `go_back` with `current_index ≤ 0` and `go_forward` with
`current_index ≥ length - 1` are silent no-ops: the whole state —
history entries and cursor included — is returned unchanged. -/
theorem nav_noop_out_of_range (s : GState) :
    (s.current_index ≤ 0 → go_back s = s) ∧
    ((s.history.length : Int) - 1 ≤ s.current_index → go_forward s = s) := by
  constructor
  · intro h
    have hc : ¬ (1 < s.current_index ∧
        (pys "search://").isPrefixOf (s.history.getD s.current_index.toNat []) = true ∧
        s.history.getD 1 [] = pys "startup://") := by
      rintro ⟨h1, -, -⟩
      omega
    simp only [go_back]
    rw [if_neg hc, if_pos h]
  · intro h
    simp only [go_forward]
    rw [if_pos h]

/-- Witness: both no-op clauses at the seeded one-entry state. -/
theorem nav_noop_out_of_range_witness :
    go_back seeded = seeded ∧ go_forward seeded = seeded := by
  have h := nav_noop_out_of_range seeded
  exact ⟨h.1 (by decide), h.2 (by decide)⟩
